import Mathlib

/-!
# Verification of the `Media` dispatch class (openplayerjs)

A shallow embedding of `src/unnamed/part_000` (the `Media` class) and
`src/src/js/media/youtube.js` (the `YouTubeMedia` adapter), together with
proofs about source selection, backend dispatch, the `load()` fallback
loop, the `src` getter/setter, and error behaviour.

JavaScript features are embedded as follows:
* a thrown exception is an `Except.error`; because property mutations on
  `this` performed before a throw survive the throw, stateful operations
  return `Except (JsErr × MediaState) MediaState`, the error carrying the
  state as mutated up to the throw;
* a possibly-absent object property (`undefined` on access) is an `Option`;
* the helper modules `./utils/dom` and `./utils/url` and the seven adapter
  classes other than `YouTubeMedia` are not part of the given sources, so
  their behaviour is a parameter `Env` (see its docstring).
-/

/-- JavaScript runtime errors thrown by the embedded code. -/
inductive JsErr where
  /-- `throw new TypeError(msg)`, or a TypeError raised by the runtime
  (calling a method of `null`/`undefined`, calling a non-function). -/
  | typeError (msg : String)
  /-- evaluation of an undeclared identifier. -/
  | referenceError (name : String)
deriving DecidableEq, Repr

/-- A media descriptor as the `Media` class stores it in `mediaFiles`.
In the source these are plain JS objects; an absent property reads as
`undefined`, embedded as `none`. -/
structure MediaDesc where
  src : Option String := none
  type : Option String := none
deriving DecidableEq, Repr

/-- The DOM element handed to the `Media` constructor, reduced to the
observations the source makes of it: whether `isIframe(element)` holds
(`./utils/dom`, not in the sources — a tag-name test per the spec's
"iframe-embedded third-party player"), the reflected `src` property
(always a string on media/iframe elements), the element's `type`
attribute and its `<source>` children. -/
structure Element where
  isIframe : Bool
  src : String := ""
  typeAttr : Option String := none
  sourceChildren : List MediaDesc := []
deriving DecidableEq, Repr

/-- The eight backend adapter classes the dispatch can instantiate. -/
inductive AdapterKind where
  | native | hls | dash | dailymotion | facebook | twitch | vimeo | youtube
deriving DecidableEq, Repr

/-- An instantiated backend adapter: its class and the media descriptor
passed to its constructor (`new XMedia(this.element, media)`). -/
structure Adapter where
  kind : AdapterKind
  desc : MediaDesc
deriving DecidableEq, Repr

/-- The `this.media` property of a `Media` instance. It is `undefined`
before `load()` runs, can be set to `null` by the iframe dispatch
(`_loadIframeSource` returns `null` when no provider matches), and is
otherwise an adapter instance. -/
inductive Backend where
  | undef
  | null
  | adapter (a : Adapter)
deriving DecidableEq, Repr

/-- Modelled from the spec: the repository's `./utils/url` module (URL
"string-pattern checks" `isDailymotionSource`, `isFacebookSource`,
`isTwitchSource`, `isVimeoSource`, `isYouTubeSource`, `isHlsSource`,
`isDashSource`, and `predictType`, "the type predicted from the URL") is
not among the given sources, and neither are the adapter classes other
than `YouTubeMedia`. Their behaviour is kept abstract: theorems are
proved for every `Env`, so they hold whatever the missing code does.
The URL predicates accept `Option String` because the JS functions can
receive `undefined` when a descriptor lacks a `src` property.
`adapterCanPlay` is the `canPlayType` method of the seven adapter classes
whose code is absent (the YouTube one is embedded from its source). -/
structure Env where
  isDailymotionSource : Option String → Bool
  isFacebookSource : Option String → Bool
  isTwitchSource : Option String → Bool
  isVimeoSource : Option String → Bool
  isYouTubeSource : Option String → Bool
  isHlsSource : Option String → Bool
  isDashSource : Option String → Bool
  predictType : String → String
  adapterCanPlay : AdapterKind → MediaDesc → Option String → Bool

/-- The state of a `Media` instance: the constructor sets `element` and
`mediaFiles` and initialises `promisePlay` to `null`; `this.media` starts
out `undefined`. `promisePlay` is `some ()` once `play()` has stored a
promise there. -/
structure MediaState where
  element : Element
  mediaFiles : List MediaDesc
  media : Backend := .undef
  promisePlay : Option Unit := none
deriving DecidableEq, Repr

/-- `YouTubeMedia.canPlayType` from `src/src/js/media/youtube.js`:
`mimeType === 'application/x-youtube' && this.media.type === mimeType`
(in the adapter, `this.media` is the descriptor it was built from). -/
def YouTubeMedia.canPlayType (a : Adapter) (mimeType : Option String) : Bool :=
  mimeType == some "application/x-youtube" && a.desc.type == mimeType

/-- `canPlayType` of an instantiated adapter: the YouTube one is embedded
from its source, the remaining seven are the `Env` parameter. -/
def Adapter.canPlayType (env : Env) (a : Adapter) (mimeType : Option String) : Bool :=
  match a.kind with
  | .youtube => YouTubeMedia.canPlayType a mimeType
  | k => env.adapterCanPlay k a.desc mimeType

/-- `Media.prototype.canPlayType` (part_000 lines 38–40):
`!!(this.media.canPlayType(mimeType))`. Reading `canPlayType` of `null`
or `undefined` and calling it raises a TypeError; the `!!` coercion is
absorbed because the embedded adapter methods already return `Bool`. -/
def Media.canPlayType (env : Env) (b : Backend) (mimeType : Option String) :
    Except JsErr Bool :=
  match b with
  | .undef => .error (.typeError "Cannot read canPlayType of undefined")
  | .null => .error (.typeError "Cannot read canPlayType of null")
  | .adapter a => .ok (a.canPlayType env mimeType)

/-- `Media.prototype._loadIframeSource` (part_000 lines 191–205): the
provider chain Dailymotion → Facebook → Twitch → Vimeo → YouTube, falling
through to `return null`. -/
def Media.loadIframeSource (env : Env) (media : MediaDesc) : Option Adapter :=
  if env.isDailymotionSource media.src then some ⟨.dailymotion, media⟩
  else if env.isFacebookSource media.src then some ⟨.facebook, media⟩
  else if env.isTwitchSource media.src then some ⟨.twitch, media⟩
  else if env.isVimeoSource media.src then some ⟨.vimeo, media⟩
  else if env.isYouTubeSource media.src then some ⟨.youtube, media⟩
  else none

/-- `Media.prototype._loadNativeSource` (part_000 lines 214–222): HLS →
DASH → native, never `null`. -/
def Media.loadNativeSource (env : Env) (media : MediaDesc) : Adapter :=
  if env.isHlsSource media.src then ⟨.hls, media⟩
  else if env.isDashSource media.src then ⟨.dash, media⟩
  else ⟨.native, media⟩

/-- One iteration of the assignment in `load()`'s `some` callback
(part_000 lines 59–64): `this.media = isIframe(this.element) ?
this._loadIframeSource(media) : this._loadNativeSource(media)`, with the
`catch` falling back to `new NativeMedia(...)`. The adapter constructors
are modelled from the spec as non-throwing wrappers (the given sources
contain no throwing constructor; `YouTubeMedia`'s does not throw), and
`_loadIframeSource` signals an unmatched URL by *returning* `null`, not
by throwing, so the `catch` branch is not reachable in the embedding. -/
def Media.pickBackend (env : Env) (isIframe : Bool) (media : MediaDesc) : Backend :=
  if isIframe then
    match Media.loadIframeSource env media with
    | some a => .adapter a
    | none => .null
  else .adapter (Media.loadNativeSource env media)

/-- The outcome of one iteration of `load()`'s `some` callback on one
descriptor: the backend it assigns to `this.media` and what
`this.canPlayType(media.type)` then does with it. -/
def Media.descrStep (env : Env) (isIframe : Bool) (media : MediaDesc) :
    Backend × Except JsErr Bool :=
  let b := Media.pickBackend env isIframe media
  (b, Media.canPlayType env b media.type)

/-- The `this.mediaFiles.some(media => ...)` loop of `load()` (part_000
lines 57–67). Returns the descriptors examined (in order) and the final
value of `this.media`; a TypeError raised by `canPlayType` aborts the
loop, and the error carries the descriptors examined so far and the
`this.media` mutation that survives the throw. -/
def Media.someLoop (env : Env) (isIframe : Bool) (b : Backend) :
    List MediaDesc → Except (JsErr × Backend × List MediaDesc) (Backend × List MediaDesc)
  | [] => .ok (b, [])
  | d :: rest =>
    match Media.descrStep env isIframe d with
    | (b', .error e) => .error (e, b', [d])
    | (b', .ok true) => .ok (b', [d])
    | (b', .ok false) =>
      match Media.someLoop env isIframe b' rest with
      | .ok (b'', ex) => .ok (b'', d :: ex)
      | .error (e, b'', ex) => .error (e, b'', d :: ex)

/-- `Media.prototype.load` (part_000 lines 51–81). Empty `mediaFiles`
throws `TypeError('Media not set')` before anything is mutated. Then the
`some` loop runs; if it completes, the `this.media === null` guard is
checked and `this.media.promise.then(() => this.media.load())` schedules
the backend's `load` (no observable effect on the `Media` state;
`YouTubeMedia.load` only logs). The `catch { throw e; }` at lines 76–79
rethrows unchanged. -/
def Media.load (env : Env) (s : MediaState) :
    Except (JsErr × MediaState) MediaState :=
  if s.mediaFiles = [] then
    .error (.typeError "Media not set", s)
  else
    match Media.someLoop env s.element.isIframe s.media s.mediaFiles with
    | .error (e, b, _) => .error (e, { s with media := b })
    | .ok (b, _) =>
      if b = .null then
        .error (.typeError "Media cannot be played with any valid media type",
          { s with media := b })
      else
        .ok { s with media := b }

/-- `Media.prototype._getMediaFiles` (part_000 lines 153–183). The iframe
branch pushes `{type: source.predictType(this.element.src), src:
this.element.src}`. In the non-iframe branch, after the (effect-free)
`querySelectorAll` call, line 165 evaluates the identifier `nodeSource`,
which is declared nowhere in the file and is not an import — a
ReferenceError in an ES module — so the branch always throws and the
code at lines 166–179 (including the `<source>`-children gathering) is
unreachable. -/
def Media.getMediaFiles (env : Env) (element : Element) :
    Except JsErr (List MediaDesc) :=
  if element.isIframe then
    .ok [{ type := some (env.predictType element.src), src := some element.src }]
  else
    .error (.referenceError "nodeSource is not defined")

/-- The `Media` constructor (part_000 lines 25–30): stores the element,
gathers `mediaFiles` via `_getMediaFiles`, and initialises `promisePlay`
to `null` (`this.media` is left undefined). -/
def Media.mk (env : Env) (element : Element) : Except JsErr MediaState :=
  match Media.getMediaFiles env element with
  | .error e => .error e
  | .ok fs => .ok { element := element, mediaFiles := fs }

/-- An argument to the `src` setter: the source documents
`string|object|object[]`. A value of any other type would fall through
every branch of the setter unchanged; those are not modelled. -/
inductive SrcArg where
  | str (s : String)
  | arr (xs : List MediaDesc)
  | obj (d : MediaDesc)
deriving DecidableEq, Repr

/-- The trailing guard of the `src` setter (part_000 lines 125–127):
`if (typeof this.media.src === 'function') { this.media.src(this.mediaFiles); }`.
Reading `src` of an `undefined` or `null` `this.media` throws a
TypeError (after the `mediaFiles` mutation has happened). On an adapter
instance the property read succeeds; the call, when the adapter has an
`src` method, acts on the adapter's internals only, which the `Media`
state does not observe. -/
def Media.srcGuard (s : MediaState) : Except (JsErr × MediaState) MediaState :=
  match s.media with
  | .undef => .error (.typeError "Cannot read src of undefined", s)
  | .null => .error (.typeError "Cannot read src of null", s)
  | .adapter _ => .ok s

/-- The `src` setter (part_000 lines 113–128). The string branch builds
`{src: media, type: predictType(media)}`: `predictType` is a bare
identifier — the module only imports `* as source` and calls
`source.predictType` everywhere else — so evaluating the object literal
throws a ReferenceError before anything is pushed. The array branch
replaces `this.mediaFiles` wholesale; the object branch pushes the
argument unchecked. Both then run the `this.media.src` guard. -/
def Media.setSrc (s : MediaState) : SrcArg → Except (JsErr × MediaState) MediaState
  | .str _ => .error (.referenceError "predictType is not defined", s)
  | .arr xs => Media.srcGuard { s with mediaFiles := xs }
  | .obj d => Media.srcGuard { s with mediaFiles := s.mediaFiles ++ [d] }

/-- The `src` getter (part_000 lines 136–138): returns `this.mediaFiles`. -/
def Media.getSrc (s : MediaState) : List MediaDesc :=
  s.mediaFiles

/-- Whether an adapter instance has a `play` method. `YouTubeMedia`
(its source is given) defines only `constructor`, `canPlayType` and
`load`, so `typeof this.media.play === 'function'` is false for it.
Modelled from the spec for the other seven classes: adapters implement
"a common play/pause/load/destroy surface". -/
def Adapter.hasPlayMethod : AdapterKind → Bool
  | .youtube => false
  | _ => true

/-- Whether an adapter instance has a `pause` method; see
`Adapter.hasPlayMethod` (false for `YouTubeMedia`, modelled from the
spec as true for the rest). -/
def Adapter.hasPauseMethod : AdapterKind → Bool
  | .youtube => false
  | _ => true

/-- Whether an adapter instance has a `destroy` method; see
`Adapter.hasPlayMethod` (false for `YouTubeMedia`, modelled from the
spec as true for the rest). -/
def Adapter.hasDestroyMethod : AdapterKind → Bool
  | .youtube => false
  | _ => true

/-- The receiver a `Media` method call is dispatched to. -/
inductive DispatchTarget where
  | backend (a : Adapter)
  | element
deriving DecidableEq, Repr

/-- The target computed inside `play()` (part_000 line 89):
`typeof this.media.play === 'function' ? this.media : this.element`.
Reading `play` of an `undefined` or `null` backend throws. -/
def Media.playTarget (s : MediaState) : Except JsErr DispatchTarget :=
  match s.media with
  | .undef => .error (.typeError "Cannot read play of undefined")
  | .null => .error (.typeError "Cannot read play of null")
  | .adapter a =>
    .ok (if Adapter.hasPlayMethod a.kind then .backend a else .element)

/-- The target computed by `pause()` (part_000 line 98):
`typeof this.media.pause === 'function' ? this.media : this.element`. -/
def Media.pauseTarget (s : MediaState) : Except JsErr DispatchTarget :=
  match s.media with
  | .undef => .error (.typeError "Cannot read pause of undefined")
  | .null => .error (.typeError "Cannot read pause of null")
  | .adapter a =>
    .ok (if Adapter.hasPauseMethod a.kind then .backend a else .element)

/-- `Media.prototype.destroy` (part_000 lines 140–142):
`this.media.destroy()` with no element fallback and no existence check;
calling a missing `destroy` property is a TypeError. -/
def Media.destroy (s : MediaState) : Except JsErr Unit :=
  match s.media with
  | .undef => .error (.typeError "Cannot read destroy of undefined")
  | .null => .error (.typeError "Cannot read destroy of null")
  | .adapter a =>
    if Adapter.hasDestroyMethod a.kind then .ok ()
    else .error (.typeError "this.media.destroy is not a function")

/-!
## Promise scheduling of `play()` / `pause()`

`play()` (part_000 lines 83–95) builds
`this.promisePlay = new Promise(resolve => resolve()).then(() => {
this.media.promise.then(() => { target.play(); }); })` and `pause()`
(lines 97–106) runs `this.promisePlay.then(() => target.pause())` when
`promisePlay` is set. The outer `then` callback does not return the
inner `this.media.promise.then(...)` promise, so `promisePlay` settles
as soon as the callback has *scheduled* the play action, not when the
action runs. The model below is the JS microtask machine specialised to
the scenario "`play()` then `pause()` called synchronously": the only
callbacks in flight are the body of the outer `then` (`baseCb`), the
deferred play action (`playCb`) and the deferred pause action
(`pauseCb`); `resolveMedia` is the external event that settles the
backend's readiness promise `this.media.promise`.
-/

/-- An action delivered to the play/pause dispatch target. -/
inductive PAction where
  | play
  | pause
deriving DecidableEq, Repr

/-- The promise callbacks in flight in the play-then-pause scenario. -/
inductive MTask where
  /-- the outer `then` callback of `play()`: registers the play action on
  `this.media.promise` and, on returning, settles `promisePlay`. -/
  | baseCb
  /-- `() => { target.play(); }` registered on `this.media.promise`. -/
  | playCb
  /-- `() => { target.pause(); }` registered on `promisePlay`. -/
  | pauseCb
deriving DecidableEq, Repr

/-- The microtask-machine state: the microtask queue, the state of
`this.media.promise` (`mediaResolved` plus its pending reactions), the
state of `promisePlay` (`ppResolved` plus its pending reactions), and
the actions delivered so far, in order. -/
structure MState where
  queue : List MTask
  mediaResolved : Bool
  mediaReactions : List MTask
  ppResolved : Bool
  ppReactions : List MTask
  delivered : List PAction
deriving DecidableEq, Repr

/-- Events the machine reacts to: the event loop running the next
microtask, or the backend's readiness promise resolving (which enqueues
its pending reactions). -/
inductive MEvent where
  | runTask
  | resolveMedia
deriving DecidableEq, Repr

/-- Runs the microtask at the head of the queue. `baseCb` performs
`this.media.promise.then(playCb)` — enqueueing `playCb` when the media
promise is already resolved, otherwise parking it as a reaction — and
then, by returning, settles `promisePlay`, enqueueing its reactions. -/
def MState.runHead (s : MState) : MState :=
  match s.queue with
  | [] => s
  | t :: q =>
    match t with
    | .baseCb =>
      if s.mediaResolved then
        { s with queue := (q ++ [.playCb]) ++ s.ppReactions,
                 ppResolved := true, ppReactions := [] }
      else
        { s with queue := q ++ s.ppReactions,
                 mediaReactions := s.mediaReactions ++ [.playCb],
                 ppResolved := true, ppReactions := [] }
    | .playCb => { s with queue := q, delivered := s.delivered ++ [.play] }
    | .pauseCb => { s with queue := q, delivered := s.delivered ++ [.pause] }

/-- One machine transition per event. -/
def MState.step (s : MState) : MEvent → MState
  | .runTask => s.runHead
  | .resolveMedia =>
    if s.mediaResolved then s
    else { s with mediaResolved := true,
                  queue := s.queue ++ s.mediaReactions, mediaReactions := [] }

/-- Runs a sequence of events. -/
def MState.run (s : MState) (evs : List MEvent) : MState :=
  evs.foldl MState.step s

/-- The machine state right after `play(); pause();` have run
synchronously with the backend's readiness promise in state
`mediaResolved`: the base promise of `play()` has resolved so `baseCb`
is queued, and `pause()` found `promisePlay` set but pending, so
`pauseCb` is parked as its reaction. -/
def MState.init (mediaResolved : Bool) : MState :=
  { queue := [.baseCb], mediaResolved := mediaResolved, mediaReactions := [],
    ppResolved := false, ppReactions := [.pauseCb], delivered := [] }

/-- Invariant of the play/pause microtask machine: while the backend's
readiness promise is unresolved, the deferred play callback is neither
queued nor registered on `promisePlay`, and no play action has been
delivered. -/
def MInv (s : MState) : Prop :=
  s.mediaResolved = false →
    MTask.playCb ∉ s.queue ∧ MTask.playCb ∉ s.ppReactions ∧
      PAction.play ∉ s.delivered

/-- A concrete instantiation of `Env` used by witnesses and
counterexamples: each URL predicate recognises one short marker string,
`predictType` always answers `video/mp4`, and the spec-modelled adapters
accept exactly `video/mp4`. Any instantiation would do; theorems are
proved for every `Env`. -/
def envC : Env where
  isDailymotionSource s := s == some "dm"
  isFacebookSource s := s == some "fb"
  isTwitchSource s := s == some "tw"
  isVimeoSource s := s == some "vm"
  isYouTubeSource s := s == some "yt"
  isHlsSource s := s == some "v.m3u8"
  isDashSource s := s == some "v.mpd"
  predictType _ := "video/mp4"
  adapterCanPlay _ _ m := m == some "video/mp4"

/-- An iframe element whose `src` is `envC`'s YouTube marker. -/
def elIfr : Element := { isIframe := true, src := "yt" }

/-- An iframe element whose `src` matches none of `envC`'s providers. -/
def elBadIfr : Element := { isIframe := true, src := "other" }

/-- A non-iframe `<video>` element with one `<source>` child. -/
def elVid : Element :=
  { isIframe := false, src := "v.mp4",
    sourceChildren := [{ src := some "v.mp4", type := some "video/mp4" }] }

/-- A YouTube descriptor whose `type` the YouTube adapter accepts. -/
def dYT : MediaDesc := { src := some "yt", type := some "application/x-youtube" }

/-- A YouTube-URL descriptor whose `type` the YouTube adapter rejects. -/
def dYTwrong : MediaDesc := { src := some "yt", type := some "video/mp4" }

/-- A descriptor whose URL matches none of `envC`'s providers. -/
def dBad : MediaDesc := { src := some "other", type := some "video/mp4" }

/-- A plain MP4 descriptor. -/
def dMp4 : MediaDesc := { src := some "v.mp4", type := some "video/mp4" }

/-- A `Media` state whose selected backend is the native adapter. -/
def sNat : MediaState :=
  { element := elVid, mediaFiles := [dMp4], media := .adapter ⟨.native, dMp4⟩ }

/-- A `Media` state whose selected backend is the YouTube adapter. -/
def sYT : MediaState :=
  { element := elIfr, mediaFiles := [dYT], media := .adapter ⟨.youtube, dYT⟩ }

/-!
## Helper lemmas
-/

/-- The dispatch never leaves `this.media` undefined: `_loadNativeSource`
always returns an adapter and `_loadIframeSource` returns an adapter or
`null`. -/
theorem Media.pickBackend_ne_undef (env : Env) (ifr : Bool) (d : MediaDesc) :
    Media.pickBackend env ifr d ≠ .undef := by
  unfold Media.pickBackend
  cases ifr with
  | false => simp
  | true =>
    simp only [if_true]
    cases Media.loadIframeSource env d <;> simp

/-- When an iteration's `canPlayType` returns a boolean, the backend it
was called on is an adapter instance. -/
theorem Media.descrStep_ok (env : Env) (ifr : Bool) (d : MediaDesc) (r : Bool)
    (h : (Media.descrStep env ifr d).2 = .ok r) :
    ∃ a, (Media.descrStep env ifr d).1 = .adapter a := by
  unfold Media.descrStep at h ⊢
  cases hb : Media.pickBackend env ifr d <;>
    simp [hb, Media.canPlayType] at h ⊢

/-- When an iteration's `canPlayType` throws, the error is the
`null`-backend TypeError and `this.media` has been set to `null`. -/
theorem Media.descrStep_error (env : Env) (ifr : Bool) (d : MediaDesc) (e : JsErr)
    (h : (Media.descrStep env ifr d).2 = .error e) :
    e = .typeError "Cannot read canPlayType of null" ∧
      (Media.descrStep env ifr d).1 = .null := by
  have hu := Media.pickBackend_ne_undef env ifr d
  unfold Media.descrStep at h ⊢
  cases hb : Media.pickBackend env ifr d <;>
    simp [hb, Media.canPlayType] at h hu ⊢
  exact h.symm

/-- Skipping a prefix of unplayable-but-non-throwing descriptors: the
`some` loop examines exactly the prefix plus the first playable
descriptor, and settles on that descriptor's backend. -/
theorem Media.someLoop_skip (env : Env) (ifr : Bool) (d : MediaDesc)
    (rest : List MediaDesc) (pre : List MediaDesc) :
    ∀ b : Backend,
    (∀ x ∈ pre, (Media.descrStep env ifr x).2 = .ok false) →
    (Media.descrStep env ifr d).2 = .ok true →
    Media.someLoop env ifr b (pre ++ d :: rest) =
      .ok ((Media.descrStep env ifr d).1, pre ++ [d]) := by
  induction pre with
  | nil =>
    intro b _ hd
    rcases hs : Media.descrStep env ifr d with ⟨b0, r⟩
    rw [hs] at hd
    simp only at hd
    subst hd
    simp [Media.someLoop, hs]
  | cons x xs ih =>
    intro b hpre hd
    rcases hx : Media.descrStep env ifr x with ⟨bx, rx⟩
    have hxf : rx = .ok false := by
      have := hpre x (List.mem_cons_self x xs)
      rw [hx] at this
      exact this
    subst hxf
    have hrec := ih bx (fun y hy => hpre y (List.mem_cons_of_mem x hy)) hd
    simp only [List.cons_append, Media.someLoop, hx, List.append_eq, hrec]

/-- Unfolding equation for one step of the `some` loop. -/
theorem Media.someLoop_cons (env : Env) (ifr : Bool) (b : Backend) (d : MediaDesc)
    (rest : List MediaDesc) :
    Media.someLoop env ifr b (d :: rest) =
      (match Media.descrStep env ifr d with
      | (b', .error e) => .error (e, b', [d])
      | (b', .ok true) => .ok (b', [d])
      | (b', .ok false) =>
        match Media.someLoop env ifr b' rest with
        | .ok (b'', ex) => .ok (b'', d :: ex)
        | .error (e, b'', ex) => .error (e, b'', d :: ex)) := rfl

/-- One loop step when the iteration's `canPlayType` throws. -/
theorem Media.someLoop_cons_error (env : Env) (ifr : Bool) (b b0 : Backend)
    (d : MediaDesc) (rest : List MediaDesc) (e : JsErr)
    (h : Media.descrStep env ifr d = (b0, .error e)) :
    Media.someLoop env ifr b (d :: rest) = .error (e, b0, [d]) := by
  rw [Media.someLoop_cons, h]

/-- One loop step when the iteration's `canPlayType` answers true. -/
theorem Media.someLoop_cons_true (env : Env) (ifr : Bool) (b b0 : Backend)
    (d : MediaDesc) (rest : List MediaDesc)
    (h : Media.descrStep env ifr d = (b0, .ok true)) :
    Media.someLoop env ifr b (d :: rest) = .ok (b0, [d]) := by
  rw [Media.someLoop_cons, h]

/-- One loop step when the iteration's `canPlayType` answers false. -/
theorem Media.someLoop_cons_false (env : Env) (ifr : Bool) (b b0 : Backend)
    (d : MediaDesc) (rest : List MediaDesc)
    (h : Media.descrStep env ifr d = (b0, .ok false)) :
    Media.someLoop env ifr b (d :: rest) =
      (match Media.someLoop env ifr b0 rest with
      | .ok (b2, ex) => .ok (b2, d :: ex)
      | .error (e, b2, ex) => .error (e, b2, d :: ex)) := by
  rw [Media.someLoop_cons, h]

/-- When the `some` loop runs on at least one descriptor and completes,
the final `this.media` is an adapter instance (in particular not
`null`). -/
theorem Media.someLoop_ok_adapter (env : Env) (ifr : Bool) :
    ∀ (rest : List MediaDesc) (d : MediaDesc) (b b' : Backend)
      (ex : List MediaDesc),
      Media.someLoop env ifr b (d :: rest) = .ok (b', ex) →
      ∃ a, b' = .adapter a := by
  intro rest
  induction rest with
  | nil =>
    intro d b b' ex h
    rcases hs : Media.descrStep env ifr d with ⟨b0, r⟩
    have hb0 : ∀ bb : Bool, r = .ok bb → ∃ a, b0 = .adapter a := by
      intro bb hbb
      have h2 : (Media.descrStep env ifr d).2 = .ok bb := by rw [hs, hbb]
      obtain ⟨a, ha⟩ := Media.descrStep_ok env ifr d bb h2
      rw [hs] at ha
      exact ⟨a, ha⟩
    rcases r with e | bb
    · rw [Media.someLoop_cons_error env ifr b b0 d [] e hs] at h
      simp at h
    · cases bb
      · rw [Media.someLoop_cons_false env ifr b b0 d [] hs] at h
        simp [Media.someLoop] at h
        obtain ⟨hb, _⟩ := h
        exact hb ▸ hb0 false rfl
      · rw [Media.someLoop_cons_true env ifr b b0 d [] hs] at h
        simp at h
        obtain ⟨hb, _⟩ := h
        exact hb ▸ hb0 true rfl
  | cons d2 r2 ih =>
    intro d b b' ex h
    rcases hs : Media.descrStep env ifr d with ⟨b0, r⟩
    have hb0 : ∀ bb : Bool, r = .ok bb → ∃ a, b0 = .adapter a := by
      intro bb hbb
      have h2 : (Media.descrStep env ifr d).2 = .ok bb := by rw [hs, hbb]
      obtain ⟨a, ha⟩ := Media.descrStep_ok env ifr d bb h2
      rw [hs] at ha
      exact ⟨a, ha⟩
    rcases r with e | bb
    · rw [Media.someLoop_cons_error env ifr b b0 d (d2 :: r2) e hs] at h
      simp at h
    · cases bb
      · rw [Media.someLoop_cons_false env ifr b b0 d (d2 :: r2) hs] at h
        rcases hrec : Media.someLoop env ifr b0 (d2 :: r2) with pe | ⟨b2, ex2⟩
        · rw [hrec] at h
          simp at h
        · rw [hrec] at h
          simp at h
          obtain ⟨hb, _⟩ := h
          obtain ⟨a, ha⟩ := ih d2 b0 b2 ex2 hrec
          exact ⟨a, hb ▸ ha⟩
      · rw [Media.someLoop_cons_true env ifr b b0 d (d2 :: r2) hs] at h
        simp at h
        obtain ⟨hb, _⟩ := h
        exact hb ▸ hb0 true rfl

/-- Any error escaping the `some` loop is the TypeError from calling
`canPlayType` on a `null` backend, and it leaves `this.media` null. -/
theorem Media.someLoop_error_msg (env : Env) (ifr : Bool) :
    ∀ (l : List MediaDesc) (b : Backend) (e : JsErr) (b2 : Backend)
      (ex : List MediaDesc),
      Media.someLoop env ifr b l = .error (e, b2, ex) →
      e = .typeError "Cannot read canPlayType of null" ∧ b2 = .null := by
  intro l
  induction l with
  | nil =>
    intro b e b2 ex h
    simp [Media.someLoop] at h
  | cons d rest ih =>
    intro b e b2 ex h
    rcases hs : Media.descrStep env ifr d with ⟨b0, r⟩
    rcases r with e0 | bb
    · rw [Media.someLoop_cons_error env ifr b b0 d rest e0 hs] at h
      simp at h
      obtain ⟨hmsg, hnull⟩ := Media.descrStep_error env ifr d e0 (by rw [hs])
      rw [hs] at hnull
      simp at hnull
      simp_all
    · cases bb
      · rw [Media.someLoop_cons_false env ifr b b0 d rest hs] at h
        rcases hrec : Media.someLoop env ifr b0 rest with ⟨e3, b3, ex3⟩ | ⟨bq, exq⟩
        · rw [hrec] at h
          simp at h
          have := ih b0 e3 b3 ex3 hrec
          simp_all
        · rw [hrec] at h
          simp at h
      · rw [Media.someLoop_cons_true env ifr b b0 d rest hs] at h
        simp at h

/-- Running one microtask preserves the play/pause invariant. -/
theorem minv_runHead (s : MState) (h : MInv s) : MInv s.runHead := by
  rcases hq : s.queue with _ | ⟨t, q⟩
  · simp only [MState.runHead, hq]
    exact h
  · cases t
    · simp only [MState.runHead, hq]
      cases hm : s.mediaResolved
      · simp only [hm, Bool.false_eq_true, if_false]
        intro _
        obtain ⟨h1, h2, h3⟩ := h hm
        rw [hq] at h1
        simp only [List.mem_cons] at h1
        push_neg at h1
        refine ⟨?_, by simp, h3⟩
        intro hc
        rcases List.mem_append.mp hc with hcq | hcp
        · exact h1.2 hcq
        · exact h2 hcp
      · simp only [hm, if_true]
        intro hf
        simp only [hm] at hf
        exact absurd hf (by simp)
    · simp only [MState.runHead, hq]
      intro hf
      simp only at hf
      obtain ⟨h1, _, _⟩ := h hf
      rw [hq] at h1
      exact (h1 (List.mem_cons_self _ _)).elim
    · simp only [MState.runHead, hq]
      intro hf
      simp only at hf
      obtain ⟨h1, h2, h3⟩ := h hf
      rw [hq] at h1
      refine ⟨fun hc => h1 (List.mem_cons_of_mem _ hc), h2, ?_⟩
      intro hc
      rcases List.mem_append.mp hc with hc1 | hc2
      · exact h3 hc1
      · simp at hc2

/-- Every machine transition preserves the play/pause invariant. -/
theorem minv_step (s : MState) (h : MInv s) (e : MEvent) : MInv (s.step e) := by
  cases e
  · exact minv_runHead s h
  · simp only [MState.step]
    cases hm : s.mediaResolved
    · simp only [hm, Bool.false_eq_true, if_false]
      intro hf
      simp only at hf
      exact absurd hf (by simp)
    · simp only [hm, if_true]
      exact h

/-- The play/pause invariant is preserved by any event sequence. -/
theorem minv_run (s : MState) (h : MInv s) : ∀ evs, MInv (s.run evs) := by
  intro evs
  induction evs generalizing s with
  | nil => exact h
  | cons e evs ih => exact ih (s.step e) (minv_step s h e)

/-- The initial play-then-pause state satisfies the invariant. -/
theorem minv_init (b : Bool) : MInv (MState.init b) := by
  intro _
  refine ⟨?_, ?_, ?_⟩ <;> simp [MState.init]

/-!
## Claims
-/

/-- Claim C10: on a `Media` whose `mediaFiles` list is empty, `load()`
throws `TypeError('Media not set')` before selecting any backend, and
the whole `Media` state (`mediaFiles`, `promisePlay` and the selected
backend) is unchanged by the failed call. -/
theorem C10_load_empty_throws_media_not_set (env : Env) (s : MediaState)
    (h : s.mediaFiles = []) :
    Media.load env s = .error (.typeError "Media not set", s) := by
  simp [Media.load, h]

/-- Witness for C10 at a concrete empty-list state. -/
theorem C10_witness :
    Media.load envC { element := elIfr, mediaFiles := [] } =
      .error (.typeError "Media not set",
        { element := elIfr, mediaFiles := [] }) :=
  C10_load_empty_throws_media_not_set envC
    { element := elIfr, mediaFiles := [] } rfl

/-- Claim C4 (code bug): constructing a `Media` on a non-iframe element
does not gather its `<source>` children into `mediaFiles` — the
non-iframe branch of `_getMediaFiles` evaluates the undeclared
identifier `nodeSource` (part_000 line 165), so construction throws a
ReferenceError instead of completing. -/
theorem C4_constructor_non_iframe_reference_error (env : Env) (el : Element)
    (h : el.isIframe = false) :
    Media.mk env el = .error (.referenceError "nodeSource is not defined") := by
  simp [Media.mk, Media.getMediaFiles, h]

/-- Witness for C4 at a concrete `<video>` element with one `<source>`. -/
theorem C4_witness :
    Media.mk envC elVid = .error (.referenceError "nodeSource is not defined") :=
  C4_constructor_non_iframe_reference_error envC elVid rfl

/-- Claim C8 (code bug): with a selected backend, assigning an array to
`media.src` replaces `mediaFiles` and the getter then returns exactly
that array; but assigning a single string does not append the predicted
descriptor — the setter evaluates the bare identifier `predictType`
(part_000 line 117; the module imports only `* as source`) and throws a
ReferenceError, leaving `mediaFiles` unchanged. -/
theorem C8_src_setter_getter (s : MediaState) (a : Adapter)
    (h : s.media = .adapter a) :
    (∀ xs, Media.setSrc s (.arr xs) = .ok { s with mediaFiles := xs } ∧
      Media.getSrc { s with mediaFiles := xs } = xs) ∧
    (∀ v, Media.setSrc s (.str v) =
      .error (.referenceError "predictType is not defined", s)) := by
  refine ⟨fun xs => ⟨?_, rfl⟩, fun v => rfl⟩
  simp [Media.setSrc, Media.srcGuard, h]

/-- Witness for C8: the array assignment and the failing string
assignment, on a concrete native-backed state. -/
theorem C8_witness :
    Media.setSrc sNat (.arr [dYT]) = .ok { sNat with mediaFiles := [dYT] } ∧
    Media.setSrc sNat (.str "v.mp4") =
      .error (.referenceError "predictType is not defined", sNat) :=
  ⟨((C8_src_setter_getter sNat ⟨.native, dMp4⟩ rfl).1 [dYT]).1,
    (C8_src_setter_getter sNat ⟨.native, dMp4⟩ rfl).2 "v.mp4"⟩

/-- Claim C7 counterexample: assigning a plain object with neither `src`
nor `type` through the `src` setter stores it verbatim, so `mediaFiles`
gains an entry lacking both fields — the claim fails for
setter-supplied entries. -/
theorem C7_counterexample :
    Media.setSrc sNat (.obj { src := none, type := none }) =
      .ok { sNat with mediaFiles := [dMp4, { src := none, type := none }] } ∧
    ({ src := none, type := none } : MediaDesc).src = none ∧
    ({ src := none, type := none } : MediaDesc).type = none :=
  ⟨rfl, rfl, rfl⟩

/-- Claim C7 (amended): every entry gathered by the constructor carries
both a `src` and a `type` field, and the setter's string branch throws
before appending anything; entries supplied to the setter's array and
object branches are stored verbatim without validation and need not
carry either field. -/
theorem C7_constructor_descriptors_have_fields (env : Env) (el : Element)
    (s : MediaState) (h : Media.mk env el = .ok s) :
    (∀ d ∈ s.mediaFiles, d.src ≠ none ∧ d.type ≠ none) ∧
    (∀ v, Media.setSrc s (.str v) =
      .error (.referenceError "predictType is not defined", s)) := by
  refine ⟨?_, fun v => rfl⟩
  intro d hd
  unfold Media.mk Media.getMediaFiles at h
  cases hifr : el.isIframe
  · rw [hifr] at h
    simp at h
  · rw [hifr] at h
    simp at h
    subst h
    simp at hd
    subst hd
    simp

/-- Witness for C7: the constructor-gathered descriptor of a concrete
iframe `Media` has both fields. -/
theorem C7_witness :
    ({ src := some "yt", type := some "video/mp4" } : MediaDesc).src ≠ none ∧
    ({ src := some "yt", type := some "video/mp4" } : MediaDesc).type ≠ none :=
  (C7_constructor_descriptors_have_fields envC elIfr
    { element := elIfr,
      mediaFiles := [{ src := some "yt", type := some "video/mp4" }] }
    rfl).1 _ (by simp)

/-- Claim C5 counterexample: `destroy()` on a `Media` whose selected
backend is the YouTube adapter throws a TypeError — `YouTubeMedia`
defines no `destroy` method and `Media.destroy` delegates to it
unconditionally, with no element fallback. -/
theorem C5_counterexample :
    Media.destroy sYT =
      .error (.typeError "this.media.destroy is not a function") := rfl

/-- Claim C5 (amended): with a selected backend, `play` and `pause`
dispatch to the adapter, falling back to the element exactly when the
adapter lacks the method; the array form of the `src` setter and the
`src` getter work; `destroy` delegates unconditionally to the adapter
and succeeds exactly when the adapter has a `destroy` method — it
throws a TypeError when the selected backend is the YouTube adapter and
succeeds for the other adapters. -/
theorem C5_uniform_surface (s : MediaState) (a : Adapter)
    (h : s.media = .adapter a) :
    Media.playTarget s =
      .ok (if Adapter.hasPlayMethod a.kind then .backend a else .element) ∧
    Media.pauseTarget s =
      .ok (if Adapter.hasPauseMethod a.kind then .backend a else .element) ∧
    (∀ xs, Media.setSrc s (.arr xs) = .ok { s with mediaFiles := xs }) ∧
    Media.getSrc s = s.mediaFiles ∧
    (Media.destroy s = .ok () ↔ Adapter.hasDestroyMethod a.kind = true) ∧
    (a.kind = .youtube →
      Media.destroy s =
        .error (.typeError "this.media.destroy is not a function")) := by
  refine ⟨?_, ?_, fun xs => ?_, rfl, ?_, ?_⟩
  · simp [Media.playTarget, h]
  · simp [Media.pauseTarget, h]
  · simp [Media.setSrc, Media.srcGuard, h]
  · constructor
    · intro hd
      unfold Media.destroy at hd
      rw [h] at hd
      by_cases hk : Adapter.hasDestroyMethod a.kind = true
      · exact hk
      · simp [hk] at hd
    · intro hk
      simp [Media.destroy, h, hk]
  · intro hk
    simp [Media.destroy, h, hk, Adapter.hasDestroyMethod]

/-- Witness for C5: `destroy()` succeeds on a concrete native-backed
state. -/
theorem C5_witness :
    Media.destroy sNat = .ok () :=
  ((C5_uniform_surface sNat ⟨.native, dMp4⟩ rfl).2.2.2.2.1).mpr rfl

/-- Claim C2: on an iframe element, each descriptor's backend is chosen
from its URL with the precedence Dailymotion, then Facebook, then
Twitch, then Vimeo, then YouTube; the iframe branch of `load()`'s
dispatch installs exactly the adapter this lookup produces (or `null`
when the lookup fails). -/
theorem C2_iframe_provider_precedence (env : Env) (d : MediaDesc) :
    (Media.loadIframeSource env d = some ⟨.dailymotion, d⟩ ↔
      env.isDailymotionSource d.src = true) ∧
    (Media.loadIframeSource env d = some ⟨.facebook, d⟩ ↔
      (env.isDailymotionSource d.src = false ∧
        env.isFacebookSource d.src = true)) ∧
    (Media.loadIframeSource env d = some ⟨.twitch, d⟩ ↔
      (env.isDailymotionSource d.src = false ∧
        env.isFacebookSource d.src = false ∧
        env.isTwitchSource d.src = true)) ∧
    (Media.loadIframeSource env d = some ⟨.vimeo, d⟩ ↔
      (env.isDailymotionSource d.src = false ∧
        env.isFacebookSource d.src = false ∧
        env.isTwitchSource d.src = false ∧
        env.isVimeoSource d.src = true)) ∧
    (Media.loadIframeSource env d = some ⟨.youtube, d⟩ ↔
      (env.isDailymotionSource d.src = false ∧
        env.isFacebookSource d.src = false ∧
        env.isTwitchSource d.src = false ∧
        env.isVimeoSource d.src = false ∧
        env.isYouTubeSource d.src = true)) ∧
    (∀ a, Media.pickBackend env true d = .adapter a ↔
      Media.loadIframeSource env d = some a) := by
  cases h1 : env.isDailymotionSource d.src <;>
  cases h2 : env.isFacebookSource d.src <;>
  cases h3 : env.isTwitchSource d.src <;>
  cases h4 : env.isVimeoSource d.src <;>
  cases h5 : env.isYouTubeSource d.src <;>
    simp [Media.loadIframeSource, Media.pickBackend, h1, h2, h3, h4, h5]

/-- Witness for C2: a Dailymotion-marked descriptor resolves to the
Dailymotion adapter under the concrete environment. -/
theorem C2_witness :
    Media.loadIframeSource envC { src := some "dm", type := some "video/mp4" } =
      some ⟨.dailymotion, { src := some "dm", type := some "video/mp4" }⟩ :=
  (C2_iframe_provider_precedence envC
    { src := some "dm", type := some "video/mp4" }).1.mpr rfl

/-- Claim C3: on a non-iframe element the dispatch chooses HLS when the
URL is an HLS source, else DASH when a DASH source, else the native
adapter — and it always produces an adapter (never `null`). -/
theorem C3_native_dispatch_precedence (env : Env) (d : MediaDesc) :
    (Media.loadNativeSource env d = ⟨.hls, d⟩ ↔
      env.isHlsSource d.src = true) ∧
    (Media.loadNativeSource env d = ⟨.dash, d⟩ ↔
      (env.isHlsSource d.src = false ∧ env.isDashSource d.src = true)) ∧
    (Media.loadNativeSource env d = ⟨.native, d⟩ ↔
      (env.isHlsSource d.src = false ∧ env.isDashSource d.src = false)) ∧
    Media.pickBackend env false d = .adapter (Media.loadNativeSource env d) := by
  cases h1 : env.isHlsSource d.src <;>
  cases h2 : env.isDashSource d.src <;>
    simp [Media.loadNativeSource, Media.pickBackend, h1, h2]

/-- Witness for C3: a plain MP4 descriptor resolves to the native
adapter under the concrete environment. -/
theorem C3_witness :
    Media.loadNativeSource envC dBad = ⟨.native, dBad⟩ :=
  (C3_native_dispatch_precedence envC dBad).2.2.1.mpr ⟨rfl, rfl⟩

/-- Claim C1 counterexample: on an iframe `Media` whose first descriptor
matches no provider, `load()` aborts with a TypeError after examining
only that descriptor, even though the second descriptor is playable —
so `load()` does not stop at the first playable descriptor and never
reaches it. -/
theorem C1_counterexample :
    Media.someLoop envC true .undef [dBad, dYT] =
      .error (.typeError "Cannot read canPlayType of null", .null, [dBad]) ∧
    (Media.descrStep envC true dYT).2 = .ok true ∧
    Media.load envC { element := elIfr, mediaFiles := [dBad, dYT] } =
      .error (.typeError "Cannot read canPlayType of null",
        { element := elIfr, mediaFiles := [dBad, dYT], media := .null }) :=
  ⟨rfl, rfl, rfl⟩

/-- Claim C1 (amended): provided every descriptor before the first
playable one yields a backend whose `canPlayType` returns false (rather
than throwing — on an iframe element a descriptor matching no provider
makes `canPlayType` throw on the `null` backend and abort `load()`
before the playable one is reached), `load()` examines exactly the
descriptors up to and including the first playable one, in list order,
and installs that descriptor's backend; the descriptors after it are
never examined and do not change the selected backend. -/
theorem C1_load_stops_at_first_playable (env : Env) (s : MediaState)
    (pre post : List MediaDesc) (d : MediaDesc)
    (hfs : s.mediaFiles = pre ++ d :: post)
    (hpre : ∀ x ∈ pre, (Media.descrStep env s.element.isIframe x).2 = .ok false)
    (hd : (Media.descrStep env s.element.isIframe d).2 = .ok true) :
    Media.someLoop env s.element.isIframe s.media s.mediaFiles =
      .ok ((Media.descrStep env s.element.isIframe d).1, pre ++ [d]) ∧
    Media.load env s =
      .ok { s with media := (Media.descrStep env s.element.isIframe d).1 } := by
  have hloop :=
    Media.someLoop_skip env s.element.isIframe d post pre s.media hpre hd
  rw [← hfs] at hloop
  refine ⟨hloop, ?_⟩
  have hne : s.mediaFiles ≠ [] := by
    rw [hfs]
    simp
  obtain ⟨a, ha⟩ := Media.descrStep_ok env s.element.isIframe d true hd
  rw [ha] at hloop
  rw [ha]
  unfold Media.load
  rw [if_neg hne, hloop]
  simp

/-- Witness for C1: a concrete iframe `Media` with an unplayable YouTube
descriptor followed by a playable one; `load()` selects the second
descriptor's backend. -/
theorem C1_witness :
    Media.load envC { element := elIfr, mediaFiles := [dYTwrong, dYT, dBad] } =
      .ok { element := elIfr, mediaFiles := [dYTwrong, dYT, dBad],
            media := (Media.descrStep envC true dYT).1 } :=
  (C1_load_stops_at_first_playable envC
    { element := elIfr, mediaFiles := [dYTwrong, dYT, dBad] }
    [dYTwrong] [dBad] dYT rfl
    (by
      intro x hx
      simp at hx
      subst hx
      rfl)
    rfl).2

/-- Claim C9: on an iframe element whose source URL matches none of the
five providers, the adapter lookup yields `null` and `load()` throws the
TypeError raised by invoking `canPlayType` on the null backend; and no
execution of `load()` ever throws the guarded TypeError
`Media cannot be played with any valid media type`. -/
theorem C9_null_backend_typeerror (env : Env) :
    (∀ (el : Element) (s : MediaState), el.isIframe = true →
      Media.mk env el = .ok s →
      env.isDailymotionSource (some el.src) = false →
      env.isFacebookSource (some el.src) = false →
      env.isTwitchSource (some el.src) = false →
      env.isVimeoSource (some el.src) = false →
      env.isYouTubeSource (some el.src) = false →
      Media.load env s =
        .error (.typeError "Cannot read canPlayType of null",
          { s with media := .null })) ∧
    (∀ (s err : MediaState),
      Media.load env s ≠
        .error (.typeError "Media cannot be played with any valid media type",
          err)) := by
  constructor
  · intro el s hifr hmk h1 h2 h3 h4 h5
    unfold Media.mk Media.getMediaFiles at hmk
    rw [hifr] at hmk
    simp at hmk
    subst hmk
    simp [Media.load, Media.someLoop, Media.descrStep, Media.pickBackend,
      Media.loadIframeSource, Media.canPlayType, hifr, h1, h2, h3, h4, h5]
  · intro s err h
    unfold Media.load at h
    by_cases hempty : s.mediaFiles = []
    · rw [if_pos hempty] at h
      simp only [Except.error.injEq, Prod.mk.injEq, JsErr.typeError.injEq] at h
      exact absurd h.1 (by decide)
    · rw [if_neg hempty] at h
      rcases hm : s.mediaFiles with _ | ⟨d, rest⟩
      · exact hempty hm
      rw [hm] at h
      rcases hl : Media.someLoop env s.element.isIframe s.media (d :: rest) with
        ⟨e3, b3, ex3⟩ | ⟨b3, ex3⟩
      · rw [hl] at h
        obtain ⟨he3, _⟩ := Media.someLoop_error_msg env s.element.isIframe
          (d :: rest) s.media e3 b3 ex3 hl
        simp only [Except.error.injEq, Prod.mk.injEq] at h
        rw [he3] at h
        obtain ⟨hmsg, _⟩ := h
        exact absurd hmsg (by simp only [JsErr.typeError.injEq]; decide)
      · rw [hl] at h
        obtain ⟨a, ha⟩ :=
          Media.someLoop_ok_adapter env s.element.isIframe rest d s.media b3 ex3 hl
        rw [ha] at h
        simp at h

/-- Witness for C9: a concrete iframe `Media` whose URL matches no
provider makes `load()` throw the null-`canPlayType` TypeError. -/
theorem C9_witness :
    Media.load envC
      { element := elBadIfr,
        mediaFiles := [{ src := some "other", type := some "video/mp4" }] } =
      .error (.typeError "Cannot read canPlayType of null",
        { element := elBadIfr,
          mediaFiles := [{ src := some "other", type := some "video/mp4" }],
          media := .null }) :=
  (C9_null_backend_typeerror envC).1 elBadIfr
    { element := elBadIfr,
      mediaFiles := [{ src := some "other", type := some "video/mp4" }] }
    rfl rfl rfl rfl rfl rfl rfl

/-- Claim C6 counterexample: when the backend's readiness promise is
still pending as `play(); pause();` run, the machine delivers the pause
while the deferred play is still parked, and the play only afterwards —
`promisePlay` settles as soon as the play action has been scheduled, not
when it has run, so a pause can be delivered before a pending deferred
play. -/
theorem C6_counterexample :
    ((MState.init false).run [.runTask, .runTask]).delivered = [.pause] ∧
    ((MState.init false).run [.runTask, .runTask]).mediaReactions =
      [.playCb] ∧
    ((MState.init false).run
        [.runTask, .runTask, .resolveMedia, .runTask]).delivered =
      [.pause, .play] :=
  ⟨rfl, rfl, rfl⟩

/-- Claim C6 (amended): the play action is delivered only once the
backend's readiness promise has resolved — an invariant over every
event interleaving; and when that promise is already resolved when the
deferred `play()` callback runs, the pause deferred behind `promisePlay`
arrives after the play. When the promise is still pending, the pause can
precede the deferred play (see the counterexample). -/
theorem C6_play_after_media_promise (b : Bool) (evs : List MEvent)
    (h : PAction.play ∈ ((MState.init b).run evs).delivered) :
    ((MState.init b).run evs).mediaResolved = true ∧
    ((MState.init true).run [.runTask, .runTask, .runTask]).delivered =
      [.play, .pause] := by
  refine ⟨?_, rfl⟩
  have hinv := minv_run (MState.init b) (minv_init b) evs
  cases hres : ((MState.init b).run evs).mediaResolved
  · exact absurd h (hinv hres).2.2
  · rfl

/-- Witness for C6 at a concrete resolved-promise run. -/
theorem C6_witness :
    ((MState.init true).run [.runTask, .runTask, .runTask]).mediaResolved =
      true :=
  (C6_play_after_media_promise true [.runTask, .runTask, .runTask]
    (by decide)).1
